import Mathlib

/-!
Shallow embedding of `src/scripts/verify_google_purchase.py`, a single-file
CLI utility that verifies, acknowledges or cancels Google Play purchases.

The script's effects are modelled by an oracle (`World`) that fixes, for one
process invocation, the outcome of credential acquisition (the metadata
calls plus the WIF exchange, delegated to external libraries) and the HTTP
response (or raised exception) of every GET/POST, keyed by the request URL.
Result objects are Python dicts, modelled as association lists of JSON
values.  Every action function also returns the list of network calls it
attempted, in order, so that claims about which endpoints are contacted can
be stated.
-/

namespace GPlay

/-- A JSON value, as produced by `response.json()` and placed in result
dicts. -/
inductive JVal where
  | bool (b : Bool)
  | nat (n : Nat)
  | str (s : String)
  | obj (kvs : List (String × JVal))

/-- A Python dict with string keys, e.g. the result object of an action
function. -/
abbrev JDict := List (String × JVal)

/-- Python `d[key]` lookup: `none` models a `KeyError`. -/
def lookupKey : JDict → String → Option JVal
  | [], _ => none
  | (k, v) :: rest, key => if k = key then some v else lookupKey rest key

/-- Python truthiness of a JSON value (used by `0 if result["success"] else 1`). -/
def truthy : JVal → Bool
  | JVal.bool b => b
  | JVal.nat n => n != 0
  | JVal.str s => s != ""
  | JVal.obj kvs => !kvs.isEmpty

/-- A raised Python exception: `str(e)` and `type(e).__name__`. -/
structure PyExn where
  message : String
  typeName : String

/-- Credentials produced by `_get_credentials` (only the bearer token is
observable downstream). -/
structure Credentials where
  token : String

/-- An HTTP response: `status_code`, `text`, and the outcome of `.json()`
(which may itself raise). -/
structure HttpResponse where
  status_code : Nat
  text : String
  jsonBody : Except PyExn JVal

/-- The oracle for one process invocation: outcome of `_get_credentials`
(metadata calls + WIF exchange), and of each `requests.get`/`requests.post`
by URL.  An `Except.error` models a raised exception. -/
structure World where
  creds : Except PyExn Credentials
  get : String → Except PyExn HttpResponse
  post : String → Except PyExn HttpResponse

/-- One attempted network call, tagged by which call site in the script
issued it.  `metadata` stands for the calls made inside `_get_credentials`. -/
inductive NetCall where
  | metadata
  | subGet (url : String)
  | prodGet (url : String)
  | ackSubPost (url : String)
  | ackProdPost (url : String)
  | cancelPost (url : String)
  deriving DecidableEq

/-- `true` iff some call in the list is a one-time-product lookup. -/
def callsProduct (calls : List NetCall) : Bool :=
  calls.any fun c => match c with
    | NetCall.prodGet _ => true
    | _ => false

def subscriptionUrl (package_name product_id purchase_token : String) : String :=
  s!"https://androidpublisher.googleapis.com/androidpublisher/v3/applications/{package_name}/purchases/subscriptions/{product_id}/tokens/{purchase_token}"

def productUrl (package_name product_id purchase_token : String) : String :=
  s!"https://androidpublisher.googleapis.com/androidpublisher/v3/applications/{package_name}/purchases/products/{product_id}/tokens/{purchase_token}"

def ackSubscriptionUrl (package_name product_id purchase_token : String) : String :=
  s!"https://androidpublisher.googleapis.com/androidpublisher/v3/applications/{package_name}/purchases/subscriptions/{product_id}/tokens/{purchase_token}:acknowledge"

def ackProductUrl (package_name product_id purchase_token : String) : String :=
  s!"https://androidpublisher.googleapis.com/androidpublisher/v3/applications/{package_name}/purchases/products/{product_id}/tokens/{purchase_token}:acknowledge"

def cancelUrl (package_name product_id purchase_token : String) : String :=
  s!"https://androidpublisher.googleapis.com/androidpublisher/v3/applications/{package_name}/purchases/subscriptions/{product_id}/tokens/{purchase_token}:cancel"

def subscriptionFailMsg (sc : Nat) : String :=
  s!"Subscription verification failed with status {sc}"

def productFailMsg (sc : Nat) : String :=
  s!"Product verification failed with status {sc}"

def acknowledgeFailMsg (sc : Nat) : String :=
  s!"Acknowledge failed with status {sc}"

def cancelFailMsg (sc : Nat) : String :=
  s!"Cancel failed with status {sc}"

/-- The dict built in the `except Exception as e:` arm of every action
function. -/
def exnFailure (e : PyExn) : JDict :=
  [("success", JVal.bool false), ("error", JVal.str e.message),
   ("errorType", JVal.str e.typeName)]

/-- The dict built for an upstream non-success HTTP status. -/
def httpFailure (msg : String) (sc : Nat) (body : String) : JDict :=
  [("success", JVal.bool false), ("error", JVal.str msg),
   ("statusCode", JVal.nat sc), ("details", JVal.str body)]

/-- `verify_purchase(package_name, product_id, purchase_token)`:
subscription lookup first; on 200 success with the parsed body; on 404
fall back to the one-time-product lookup; any other status is a failure
with status code and raw body; any exception becomes an `errorType`
failure.  Also returns the attempted network calls in order. -/
def verify_purchase (w : World) (package_name product_id purchase_token : String) :
    JDict × List NetCall :=
  match w.creds with
  | Except.error e => (exnFailure e, [NetCall.metadata])
  | Except.ok _credentials =>
    match w.get (subscriptionUrl package_name product_id purchase_token) with
    | Except.error e =>
        (exnFailure e,
         [NetCall.metadata,
          NetCall.subGet (subscriptionUrl package_name product_id purchase_token)])
    | Except.ok response =>
      if response.status_code = 200 then
        match response.jsonBody with
        | Except.error e =>
            (exnFailure e,
             [NetCall.metadata,
              NetCall.subGet (subscriptionUrl package_name product_id purchase_token)])
        | Except.ok data =>
            ([("success", JVal.bool true), ("isSubscription", JVal.bool true),
              ("data", data)],
             [NetCall.metadata,
              NetCall.subGet (subscriptionUrl package_name product_id purchase_token)])
      else if response.status_code = 404 then
        match w.get (productUrl package_name product_id purchase_token) with
        | Except.error e =>
            (exnFailure e,
             [NetCall.metadata,
              NetCall.subGet (subscriptionUrl package_name product_id purchase_token),
              NetCall.prodGet (productUrl package_name product_id purchase_token)])
        | Except.ok response2 =>
          if response2.status_code = 200 then
            match response2.jsonBody with
            | Except.error e =>
                (exnFailure e,
                 [NetCall.metadata,
                  NetCall.subGet (subscriptionUrl package_name product_id purchase_token),
                  NetCall.prodGet (productUrl package_name product_id purchase_token)])
            | Except.ok data =>
                ([("success", JVal.bool true), ("isSubscription", JVal.bool false),
                  ("data", data)],
                 [NetCall.metadata,
                  NetCall.subGet (subscriptionUrl package_name product_id purchase_token),
                  NetCall.prodGet (productUrl package_name product_id purchase_token)])
          else
            (httpFailure (productFailMsg response2.status_code) response2.status_code
               response2.text,
             [NetCall.metadata,
              NetCall.subGet (subscriptionUrl package_name product_id purchase_token),
              NetCall.prodGet (productUrl package_name product_id purchase_token)])
      else
        (httpFailure (subscriptionFailMsg response.status_code) response.status_code
           response.text,
         [NetCall.metadata,
          NetCall.subGet (subscriptionUrl package_name product_id purchase_token)])

/-- `acknowledge_subscription`: one POST to the subscription `:acknowledge`
endpoint; 200 or 204 is success. -/
def acknowledge_subscription (w : World) (package_name product_id purchase_token : String) :
    JDict × List NetCall :=
  match w.creds with
  | Except.error e => (exnFailure e, [NetCall.metadata])
  | Except.ok _credentials =>
    match w.post (ackSubscriptionUrl package_name product_id purchase_token) with
    | Except.error e =>
        (exnFailure e,
         [NetCall.metadata,
          NetCall.ackSubPost (ackSubscriptionUrl package_name product_id purchase_token)])
    | Except.ok response =>
      if response.status_code = 200 ∨ response.status_code = 204 then
        ([("success", JVal.bool true)],
         [NetCall.metadata,
          NetCall.ackSubPost (ackSubscriptionUrl package_name product_id purchase_token)])
      else
        (httpFailure (acknowledgeFailMsg response.status_code) response.status_code
           response.text,
         [NetCall.metadata,
          NetCall.ackSubPost (ackSubscriptionUrl package_name product_id purchase_token)])

/-- `acknowledge_product`: one POST to the product `:acknowledge`
endpoint; 200 or 204 is success. -/
def acknowledge_product (w : World) (package_name product_id purchase_token : String) :
    JDict × List NetCall :=
  match w.creds with
  | Except.error e => (exnFailure e, [NetCall.metadata])
  | Except.ok _credentials =>
    match w.post (ackProductUrl package_name product_id purchase_token) with
    | Except.error e =>
        (exnFailure e,
         [NetCall.metadata,
          NetCall.ackProdPost (ackProductUrl package_name product_id purchase_token)])
    | Except.ok response =>
      if response.status_code = 200 ∨ response.status_code = 204 then
        ([("success", JVal.bool true)],
         [NetCall.metadata,
          NetCall.ackProdPost (ackProductUrl package_name product_id purchase_token)])
      else
        (httpFailure (acknowledgeFailMsg response.status_code) response.status_code
           response.text,
         [NetCall.metadata,
          NetCall.ackProdPost (ackProductUrl package_name product_id purchase_token)])

/-- `cancel_subscription`: one POST to the subscription `:cancel`
endpoint; 200 or 204 is success. -/
def cancel_subscription (w : World) (package_name product_id purchase_token : String) :
    JDict × List NetCall :=
  match w.creds with
  | Except.error e => (exnFailure e, [NetCall.metadata])
  | Except.ok _credentials =>
    match w.post (cancelUrl package_name product_id purchase_token) with
    | Except.error e =>
        (exnFailure e,
         [NetCall.metadata,
          NetCall.cancelPost (cancelUrl package_name product_id purchase_token)])
    | Except.ok response =>
      if response.status_code = 200 ∨ response.status_code = 204 then
        ([("success", JVal.bool true)],
         [NetCall.metadata,
          NetCall.cancelPost (cancelUrl package_name product_id purchase_token)])
      else
        (httpFailure (cancelFailMsg response.status_code) response.status_code
           response.text,
         [NetCall.metadata,
          NetCall.cancelPost (cancelUrl package_name product_id purchase_token)])

/-- Observable outcome of one process invocation: the JSON objects printed
to stdout in order, the exit code (`none` models an uncaught exception,
i.e. a crash), and the attempted network calls. -/
structure RunOutcome where
  outputs : List JDict
  exitCode : Option Nat
  calls : List NetCall

/-- A usage-error path: print one failure dict, exit 1, no network call. -/
def usageExit (msg : String) : RunOutcome :=
  { outputs := [[("success", JVal.bool false), ("error", JVal.str msg)]],
    exitCode := some 1,
    calls := [] }

/-- The tail of `__main__`: `print(json.dumps(result))` then
`sys.exit(0 if result["success"] else 1)`; a missing `success` key would
be an uncaught `KeyError` after the print. -/
def emit (res : JDict × List NetCall) : RunOutcome :=
  match lookupKey res.1 "success" with
  | some v => { outputs := [res.1], exitCode := some (if truthy v then 0 else 1),
                calls := res.2 }
  | none => { outputs := [res.1], exitCode := none, calls := res.2 }

def usageTopMsg : String :=
  "Usage: verify_google_purchase.py <verify|cancel> <package_name> <product_id> <purchase_token>"

def usageVerifyMsg : String :=
  "Usage: verify_google_purchase.py verify <package_name> <product_id> <purchase_token>"

def usageCancelMsg : String :=
  "Usage: verify_google_purchase.py cancel <package_name> <product_id> <purchase_token>"

def usageAckMsg : String :=
  "Usage: verify_google_purchase.py acknowledge <type> <package_name> <product_id> <purchase_token>"

def unknownAckTypeMsg (ack_type : String) : String :=
  s!"Unknown acknowledge type: {ack_type}. Use \x27subscription\x27 or \x27product\x27."

def unknownActionMsg (action : String) : String :=
  s!"Unknown action: {action}. Use \x27verify\x27 or \x27cancel\x27."

/-- The `__main__` block: argument dispatch over `sys.argv` (index 0 is the
script path), with the backward-compatibility branch treating an
unrecognized action with exactly 3 positional arguments as `verify`. -/
def runMain (w : World) (argv : List String) : RunOutcome :=
  if argv.length < 2 then
    usageExit usageTopMsg
  else if argv.getD 1 "" = "verify" then
    if argv.length ≠ 5 then
      usageExit usageVerifyMsg
    else
      emit (verify_purchase w (argv.getD 2 "") (argv.getD 3 "") (argv.getD 4 ""))
  else if argv.getD 1 "" = "cancel" then
    if argv.length ≠ 5 then
      usageExit usageCancelMsg
    else
      emit (cancel_subscription w (argv.getD 2 "") (argv.getD 3 "") (argv.getD 4 ""))
  else if argv.getD 1 "" = "acknowledge" then
    if argv.length ≠ 6 then
      usageExit usageAckMsg
    else if argv.getD 2 "" = "subscription" then
      emit (acknowledge_subscription w (argv.getD 3 "") (argv.getD 4 "") (argv.getD 5 ""))
    else if argv.getD 2 "" = "product" then
      emit (acknowledge_product w (argv.getD 3 "") (argv.getD 4 "") (argv.getD 5 ""))
    else
      usageExit (unknownAckTypeMsg (argv.getD 2 ""))
  else
    if argv.length = 4 then
      emit (verify_purchase w (argv.getD 1 "") (argv.getD 2 "") (argv.getD 3 ""))
    else
      usageExit (unknownActionMsg (argv.getD 1 ""))

/-! ### Concrete worlds used to exercise the theorems -/

def respSub200 : HttpResponse :=
  { status_code := 200, text := "subscription-body",
    jsonBody := Except.ok (JVal.obj [("kind", JVal.str "subscriptionPurchase")]) }

def respProd200 : HttpResponse :=
  { status_code := 200, text := "product-body",
    jsonBody := Except.ok (JVal.obj [("kind", JVal.str "productPurchase")]) }

def resp404 : HttpResponse :=
  { status_code := 404, text := "not-found",
    jsonBody := Except.error { message := "no json", typeName := "JSONDecodeError" } }

def resp500 : HttpResponse :=
  { status_code := 500, text := "server-error",
    jsonBody := Except.error { message := "bad json", typeName := "JSONDecodeError" } }

def resp204 : HttpResponse :=
  { status_code := 204, text := "",
    jsonBody := Except.error { message := "no content", typeName := "JSONDecodeError" } }

def worldSub200 : World :=
  { creds := Except.ok { token := "tok" },
    get := fun _ => Except.ok respSub200,
    post := fun _ => Except.ok resp204 }

def worldProd200 : World :=
  { creds := Except.ok { token := "tok" },
    get := fun url =>
      if url = subscriptionUrl "com.example.app" "sku1" "ptok" then Except.ok resp404
      else Except.ok respProd200,
    post := fun _ => Except.ok resp204 }

def worldBothFail : World :=
  { creds := Except.ok { token := "tok" },
    get := fun url =>
      if url = subscriptionUrl "com.example.app" "sku1" "ptok" then Except.ok resp404
      else Except.ok resp500,
    post := fun _ => Except.ok resp500 }

def credsFailWorld : World :=
  { creds := Except.error { message := "metadata unreachable", typeName := "ConnectionError" },
    get := fun _ => Except.ok respSub200,
    post := fun _ => Except.ok resp204 }

def httpFailWorld : World :=
  { creds := Except.ok { token := "tok" },
    get := fun _ => Except.error { message := "request timed out", typeName := "Timeout" },
    post := fun _ => Except.error { message := "request timed out", typeName := "Timeout" } }

/-! ### Helper lemmas shared by several claims -/

theorem verify_purchase_success_key (w : World) (p i t : String) :
    ∃ b, lookupKey (verify_purchase w p i t).1 "success" = some (JVal.bool b) := by
  unfold verify_purchase
  repeat' split
  all_goals first
    | exact ⟨true, rfl⟩
    | exact ⟨false, rfl⟩

theorem acknowledge_subscription_success_key (w : World) (p i t : String) :
    ∃ b, lookupKey (acknowledge_subscription w p i t).1 "success" = some (JVal.bool b) := by
  unfold acknowledge_subscription
  repeat' split
  all_goals first
    | exact ⟨true, rfl⟩
    | exact ⟨false, rfl⟩

theorem acknowledge_product_success_key (w : World) (p i t : String) :
    ∃ b, lookupKey (acknowledge_product w p i t).1 "success" = some (JVal.bool b) := by
  unfold acknowledge_product
  repeat' split
  all_goals first
    | exact ⟨true, rfl⟩
    | exact ⟨false, rfl⟩

theorem cancel_subscription_success_key (w : World) (p i t : String) :
    ∃ b, lookupKey (cancel_subscription w p i t).1 "success" = some (JVal.bool b) := by
  unfold cancel_subscription
  repeat' split
  all_goals first
    | exact ⟨true, rfl⟩
    | exact ⟨false, rfl⟩

theorem emit_of_success_key (res : JDict × List NetCall) (b : Bool)
    (h : lookupKey res.1 "success" = some (JVal.bool b)) :
    emit res = { outputs := [res.1], exitCode := some (if b then 0 else 1),
                 calls := res.2 } := by
  unfold emit
  rw [h]
  rfl

theorem emit_shape (res : JDict × List NetCall) (b : Bool)
    (h : lookupKey res.1 "success" = some (JVal.bool b)) :
    ∃ (r : JDict) (b' : Bool),
      (emit res).outputs = [r] ∧ lookupKey r "success" = some (JVal.bool b') ∧
      (emit res).exitCode = some (if b' then 0 else 1) := by
  rw [emit_of_success_key res b h]
  exact ⟨res.1, b, rfl, h, rfl⟩

theorem runMain_shape (w : World) (argv : List String) :
    ∃ (r : JDict) (b : Bool),
      (runMain w argv).outputs = [r] ∧
      lookupKey r "success" = some (JVal.bool b) ∧
      (runMain w argv).exitCode = some (if b then 0 else 1) := by
  unfold runMain
  split
  · exact ⟨_, false, rfl, rfl, rfl⟩
  · split
    · split
      · exact ⟨_, false, rfl, rfl, rfl⟩
      · obtain ⟨b, hb⟩ := verify_purchase_success_key w (argv.getD 2 "") (argv.getD 3 "")
          (argv.getD 4 "")
        exact emit_shape _ b hb
    · split
      · split
        · exact ⟨_, false, rfl, rfl, rfl⟩
        · obtain ⟨b, hb⟩ := cancel_subscription_success_key w (argv.getD 2 "") (argv.getD 3 "")
            (argv.getD 4 "")
          exact emit_shape _ b hb
      · split
        · split
          · exact ⟨_, false, rfl, rfl, rfl⟩
          · split
            · obtain ⟨b, hb⟩ := acknowledge_subscription_success_key w (argv.getD 3 "")
                (argv.getD 4 "") (argv.getD 5 "")
              exact emit_shape _ b hb
            · split
              · obtain ⟨b, hb⟩ := acknowledge_product_success_key w (argv.getD 3 "")
                  (argv.getD 4 "") (argv.getD 5 "")
                exact emit_shape _ b hb
              · exact ⟨_, false, rfl, rfl, rfl⟩
        · split
          · obtain ⟨b, hb⟩ := verify_purchase_success_key w (argv.getD 1 "") (argv.getD 2 "")
              (argv.getD 3 "")
            exact emit_shape _ b hb
          · exact ⟨_, false, rfl, rfl, rfl⟩

/-! ### Claims -/

/-- C1: if the subscription-purchase lookup returns HTTP 200 (with a body
that parses as JSON `d`), `verify_purchase` returns success with
`isSubscription: true` and `data = d`, and the one-time-product endpoint is
never contacted. -/
theorem claim1_subscription_200 (w : World) (p i t : String) (c : Credentials)
    (r : HttpResponse) (d : JVal)
    (hc : w.creds = Except.ok c)
    (hr : w.get (subscriptionUrl p i t) = Except.ok r)
    (h200 : r.status_code = 200)
    (hj : r.jsonBody = Except.ok d) :
    verify_purchase w p i t =
      ([("success", JVal.bool true), ("isSubscription", JVal.bool true), ("data", d)],
       [NetCall.metadata, NetCall.subGet (subscriptionUrl p i t)]) ∧
    callsProduct (verify_purchase w p i t).2 = false := by
  have h : verify_purchase w p i t =
      ([("success", JVal.bool true), ("isSubscription", JVal.bool true), ("data", d)],
       [NetCall.metadata, NetCall.subGet (subscriptionUrl p i t)]) := by
    unfold verify_purchase
    rw [hc, hr]
    simp [h200, hj]
  refine ⟨h, ?_⟩
  rw [h]
  rfl

/-- Witness for C1 at a concrete world where the subscription lookup
returns 200. -/
theorem claim1_subscription_200_witness :
    verify_purchase worldSub200 "com.example.app" "sku1" "ptok" =
      ([("success", JVal.bool true), ("isSubscription", JVal.bool true),
        ("data", JVal.obj [("kind", JVal.str "subscriptionPurchase")])],
       [NetCall.metadata, NetCall.subGet (subscriptionUrl "com.example.app" "sku1" "ptok")]) ∧
    callsProduct (verify_purchase worldSub200 "com.example.app" "sku1" "ptok").2 = false :=
  claim1_subscription_200 worldSub200 "com.example.app" "sku1" "ptok"
    { token := "tok" } respSub200 (JVal.obj [("kind", JVal.str "subscriptionPurchase")])
    rfl rfl rfl rfl

/-- C2: on a 404 from the subscription lookup, `verify_purchase` falls back
to the one-time-product lookup, and a 200 there yields success with
`isSubscription: false` and the product body as `data`; moreover the
product endpoint is contacted only when the subscription lookup returned
`Except.ok` with status exactly 404. -/
theorem claim2_product_fallback :
    (∀ (w : World) (p i t : String) (c : Credentials) (r1 r2 : HttpResponse) (d : JVal),
      w.creds = Except.ok c →
      w.get (subscriptionUrl p i t) = Except.ok r1 →
      r1.status_code = 404 →
      w.get (productUrl p i t) = Except.ok r2 →
      r2.status_code = 200 →
      r2.jsonBody = Except.ok d →
      verify_purchase w p i t =
        ([("success", JVal.bool true), ("isSubscription", JVal.bool false), ("data", d)],
         [NetCall.metadata, NetCall.subGet (subscriptionUrl p i t),
          NetCall.prodGet (productUrl p i t)])) ∧
    (∀ (w : World) (p i t : String) (r1 : HttpResponse),
      w.get (subscriptionUrl p i t) = Except.ok r1 →
      r1.status_code ≠ 404 →
      callsProduct (verify_purchase w p i t).2 = false) ∧
    (∀ (w : World) (p i t : String) (e : PyExn),
      w.get (subscriptionUrl p i t) = Except.error e →
      callsProduct (verify_purchase w p i t).2 = false) ∧
    (∀ (w : World) (p i t : String) (e : PyExn),
      w.creds = Except.error e →
      callsProduct (verify_purchase w p i t).2 = false) := by
  refine ⟨?_, ?_, ?_, ?_⟩
  · intro w p i t c r1 r2 d hc hr1 h404 hr2 h200 hj
    unfold verify_purchase
    rw [hc, hr1]
    simp [h404, hr2, h200, hj]
  · intro w p i t r1 hr1 hne
    cases hc : w.creds with
    | error e => simp [verify_purchase, hc, callsProduct]
    | ok c =>
      by_cases h200 : r1.status_code = 200
      · rcases hj : r1.jsonBody with e | d <;>
          simp [verify_purchase, hc, hr1, h200, hj, callsProduct]
      · simp [verify_purchase, hc, hr1, h200, hne, callsProduct]
  · intro w p i t e hr
    cases hc : w.creds with
    | error e2 => simp [verify_purchase, hc, callsProduct]
    | ok c => simp [verify_purchase, hc, hr, callsProduct]
  · intro w p i t e hc
    simp [verify_purchase, hc, callsProduct]

/-- Witness for C2: a concrete world with a 404 subscription response and a
200 product response, plus a concrete world whose non-404 subscription
response keeps the product endpoint out of the trace. -/
theorem claim2_product_fallback_witness :
    verify_purchase worldProd200 "com.example.app" "sku1" "ptok" =
      ([("success", JVal.bool true), ("isSubscription", JVal.bool false),
        ("data", JVal.obj [("kind", JVal.str "productPurchase")])],
       [NetCall.metadata, NetCall.subGet (subscriptionUrl "com.example.app" "sku1" "ptok"),
        NetCall.prodGet (productUrl "com.example.app" "sku1" "ptok")]) ∧
    callsProduct (verify_purchase worldSub200 "com.example.app" "sku1" "ptok").2 = false :=
  ⟨claim2_product_fallback.1 worldProd200 "com.example.app" "sku1" "ptok"
      { token := "tok" } resp404 respProd200 (JVal.obj [("kind", JVal.str "productPurchase")])
      rfl rfl rfl rfl rfl rfl,
   claim2_product_fallback.2.1 worldSub200 "com.example.app" "sku1" "ptok" respSub200
      rfl (by decide)⟩

/-- C3: when the subscription lookup returns 404 and the product lookup
returns any non-200 status, the result is a failure whose `statusCode` is
the product (second) endpoint's status code. -/
theorem claim3_both_fail_second_status (w : World) (p i t : String) (c : Credentials)
    (r1 r2 : HttpResponse)
    (hc : w.creds = Except.ok c)
    (hr1 : w.get (subscriptionUrl p i t) = Except.ok r1)
    (h404 : r1.status_code = 404)
    (hr2 : w.get (productUrl p i t) = Except.ok r2)
    (hne : r2.status_code ≠ 200) :
    (verify_purchase w p i t).1 =
      httpFailure (productFailMsg r2.status_code) r2.status_code r2.text ∧
    lookupKey (verify_purchase w p i t).1 "success" = some (JVal.bool false) ∧
    lookupKey (verify_purchase w p i t).1 "statusCode" = some (JVal.nat r2.status_code) := by
  have h : verify_purchase w p i t =
      (httpFailure (productFailMsg r2.status_code) r2.status_code r2.text,
       [NetCall.metadata, NetCall.subGet (subscriptionUrl p i t),
        NetCall.prodGet (productUrl p i t)]) := by
    unfold verify_purchase
    rw [hc, hr1]
    simp [h404, hr2, hne]
  refine ⟨by rw [h], ?_, ?_⟩ <;> rw [h] <;> rfl

/-- Witness for C3 at a concrete world where the subscription lookup
returns 404 and the product lookup returns 500. -/
theorem claim3_both_fail_second_status_witness :
    (verify_purchase worldBothFail "com.example.app" "sku1" "ptok").1 =
      httpFailure (productFailMsg 500) 500 "server-error" ∧
    lookupKey (verify_purchase worldBothFail "com.example.app" "sku1" "ptok").1 "success" =
      some (JVal.bool false) ∧
    lookupKey (verify_purchase worldBothFail "com.example.app" "sku1" "ptok").1 "statusCode" =
      some (JVal.nat 500) :=
  claim3_both_fail_second_status worldBothFail "com.example.app" "sku1" "ptok"
    { token := "tok" } resp404 resp500 rfl rfl rfl rfl (by decide)

/-- C4: for every invocation, exactly one JSON object is printed to
standard output, that object has a boolean `success` field, and the exit
code is 0 when it is true and 1 otherwise. -/
theorem claim4_single_output_exit_matches (w : World) (argv : List String) :
    (runMain w argv).outputs.length = 1 ∧
    ∃ b : Bool,
      lookupKey ((runMain w argv).outputs.getD 0 []) "success" = some (JVal.bool b) ∧
      (runMain w argv).exitCode = some (if b then 0 else 1) := by
  obtain ⟨r, b, ho, hk, he⟩ := runMain_shape w argv
  refine ⟨by rw [ho]; rfl, b, ?_, he⟩
  rw [ho]
  exact hk

/-- C5: in every action function, an exception raised during credential
acquisition or during any of the HTTP calls is caught and turned into a
failure dict with `error` the exception's message and `errorType` its type
name (the shape built by `exnFailure`), never propagated. -/
theorem claim5_exceptions_caught :
    (∀ (w : World) (p i t : String) (e : PyExn), w.creds = Except.error e →
      (verify_purchase w p i t).1 = exnFailure e) ∧
    (∀ (w : World) (p i t : String) (e : PyExn), w.creds = Except.error e →
      (acknowledge_subscription w p i t).1 = exnFailure e) ∧
    (∀ (w : World) (p i t : String) (e : PyExn), w.creds = Except.error e →
      (acknowledge_product w p i t).1 = exnFailure e) ∧
    (∀ (w : World) (p i t : String) (e : PyExn), w.creds = Except.error e →
      (cancel_subscription w p i t).1 = exnFailure e) ∧
    (∀ (w : World) (p i t : String) (c : Credentials) (e : PyExn),
      w.creds = Except.ok c →
      w.get (subscriptionUrl p i t) = Except.error e →
      (verify_purchase w p i t).1 = exnFailure e) ∧
    (∀ (w : World) (p i t : String) (c : Credentials) (r1 : HttpResponse) (e : PyExn),
      w.creds = Except.ok c →
      w.get (subscriptionUrl p i t) = Except.ok r1 →
      r1.status_code = 404 →
      w.get (productUrl p i t) = Except.error e →
      (verify_purchase w p i t).1 = exnFailure e) ∧
    (∀ (w : World) (p i t : String) (c : Credentials) (e : PyExn),
      w.creds = Except.ok c →
      w.post (ackSubscriptionUrl p i t) = Except.error e →
      (acknowledge_subscription w p i t).1 = exnFailure e) ∧
    (∀ (w : World) (p i t : String) (c : Credentials) (e : PyExn),
      w.creds = Except.ok c →
      w.post (ackProductUrl p i t) = Except.error e →
      (acknowledge_product w p i t).1 = exnFailure e) ∧
    (∀ (w : World) (p i t : String) (c : Credentials) (e : PyExn),
      w.creds = Except.ok c →
      w.post (cancelUrl p i t) = Except.error e →
      (cancel_subscription w p i t).1 = exnFailure e) := by
  refine ⟨?_, ?_, ?_, ?_, ?_, ?_, ?_, ?_, ?_⟩
  · intro w p i t e hc
    simp [verify_purchase, hc]
  · intro w p i t e hc
    simp [acknowledge_subscription, hc]
  · intro w p i t e hc
    simp [acknowledge_product, hc]
  · intro w p i t e hc
    simp [cancel_subscription, hc]
  · intro w p i t c e hc hr
    simp [verify_purchase, hc, hr]
  · intro w p i t c r1 e hc hr1 h404 hr2
    simp [verify_purchase, hc, hr1, h404, hr2]
  · intro w p i t c e hc hr
    simp [acknowledge_subscription, hc, hr]
  · intro w p i t c e hc hr
    simp [acknowledge_product, hc, hr]
  · intro w p i t c e hc hr
    simp [cancel_subscription, hc, hr]

/-- Witness for C5: an unreachable metadata endpoint (credential
acquisition raises `ConnectionError`) and a timed-out HTTP call both
become failure dicts, at concrete worlds. -/
theorem claim5_exceptions_caught_witness :
    (verify_purchase credsFailWorld "com.example.app" "sku1" "ptok").1 =
      exnFailure { message := "metadata unreachable", typeName := "ConnectionError" } ∧
    (cancel_subscription credsFailWorld "com.example.app" "sku1" "ptok").1 =
      exnFailure { message := "metadata unreachable", typeName := "ConnectionError" } ∧
    (verify_purchase httpFailWorld "com.example.app" "sku1" "ptok").1 =
      exnFailure { message := "request timed out", typeName := "Timeout" } ∧
    (cancel_subscription httpFailWorld "com.example.app" "sku1" "ptok").1 =
      exnFailure { message := "request timed out", typeName := "Timeout" } :=
  ⟨claim5_exceptions_caught.1 credsFailWorld "com.example.app" "sku1" "ptok"
      { message := "metadata unreachable", typeName := "ConnectionError" } rfl,
   claim5_exceptions_caught.2.2.2.1 credsFailWorld "com.example.app" "sku1" "ptok"
      { message := "metadata unreachable", typeName := "ConnectionError" } rfl,
   claim5_exceptions_caught.2.2.2.2.1 httpFailWorld "com.example.app" "sku1" "ptok"
      { token := "tok" } { message := "request timed out", typeName := "Timeout" } rfl rfl,
   claim5_exceptions_caught.2.2.2.2.2.2.2.2 httpFailWorld "com.example.app" "sku1" "ptok"
      { token := "tok" } { message := "request timed out", typeName := "Timeout" } rfl rfl⟩

/-- C6: with zero arguments, a wrong argument count for
`verify`/`cancel`/`acknowledge`, an unknown acknowledge type, or an
unrecognized action with other than three positional arguments, `__main__`
performs no network call and prints one failure dict with exit code 1. -/
theorem claim6_usage_errors_no_network :
    (∀ (w : World) (argv : List String), argv.length < 2 →
      runMain w argv = usageExit usageTopMsg) ∧
    (∀ (w : World) (argv : List String), ¬ argv.length < 2 →
      argv.getD 1 "" = "verify" → argv.length ≠ 5 →
      runMain w argv = usageExit usageVerifyMsg) ∧
    (∀ (w : World) (argv : List String), ¬ argv.length < 2 →
      argv.getD 1 "" = "cancel" → argv.length ≠ 5 →
      runMain w argv = usageExit usageCancelMsg) ∧
    (∀ (w : World) (argv : List String), ¬ argv.length < 2 →
      argv.getD 1 "" = "acknowledge" → argv.length ≠ 6 →
      runMain w argv = usageExit usageAckMsg) ∧
    (∀ (w : World) (argv : List String), ¬ argv.length < 2 →
      argv.getD 1 "" = "acknowledge" → argv.length = 6 →
      argv.getD 2 "" ≠ "subscription" → argv.getD 2 "" ≠ "product" →
      runMain w argv = usageExit (unknownAckTypeMsg (argv.getD 2 ""))) ∧
    (∀ (w : World) (argv : List String), ¬ argv.length < 2 →
      argv.getD 1 "" ≠ "verify" → argv.getD 1 "" ≠ "cancel" →
      argv.getD 1 "" ≠ "acknowledge" → argv.length ≠ 4 →
      runMain w argv = usageExit (unknownActionMsg (argv.getD 1 ""))) := by
  refine ⟨?_, ?_, ?_, ?_, ?_, ?_⟩
  · intro w argv h0
    simp [runMain, h0, usageExit, lookupKey]
  · intro w argv h0 h1 h2
    simp only [List.getD_eq_getElem?_getD] at h1
    simp [runMain, h0, h1, h2, usageExit, lookupKey]
  · intro w argv h0 h1 h2
    simp only [List.getD_eq_getElem?_getD] at h1
    simp [runMain, h0, h1, h2, usageExit, lookupKey]
  · intro w argv h0 h1 h2
    simp only [List.getD_eq_getElem?_getD] at h1
    simp [runMain, h0, h1, h2, usageExit, lookupKey]
  · intro w argv h0 h1 h2 h3 h4
    simp only [List.getD_eq_getElem?_getD] at h1 h3 h4
    simp [h2] at h1 h3 h4
    simp [runMain, h0, h1, h2, h3, h4, usageExit, lookupKey]
  · intro w argv h0 h1 h2 h3 h4
    simp only [List.getD_eq_getElem?_getD] at h1 h2 h3
    simp [runMain, h0, h1, h2, h3, h4, usageExit, lookupKey]

/-- Witness for C6: concrete malformed invocations (no arguments; `verify`
with too few arguments; unknown acknowledge type; unknown action with two
arguments) each produce precisely the corresponding usage-error outcome. -/
theorem claim6_usage_errors_no_network_witness :
    runMain worldSub200 ["verify_google_purchase.py"] = usageExit usageTopMsg ∧
    runMain worldSub200 ["verify_google_purchase.py", "verify", "a"] =
      usageExit usageVerifyMsg ∧
    runMain worldSub200 ["verify_google_purchase.py", "acknowledge", "bogus", "a", "b", "c"] =
      usageExit (unknownAckTypeMsg "bogus") ∧
    runMain worldSub200 ["verify_google_purchase.py", "frobnicate", "a"] =
      usageExit (unknownActionMsg "frobnicate") :=
  ⟨claim6_usage_errors_no_network.1 worldSub200 ["verify_google_purchase.py"] (by decide),
   claim6_usage_errors_no_network.2.1 worldSub200 ["verify_google_purchase.py", "verify", "a"]
      (by decide) (by decide) (by decide),
   claim6_usage_errors_no_network.2.2.2.2.1 worldSub200
      ["verify_google_purchase.py", "acknowledge", "bogus", "a", "b", "c"]
      (by decide) (by decide) (by decide) (by decide) (by decide),
   claim6_usage_errors_no_network.2.2.2.2.2 worldSub200
      ["verify_google_purchase.py", "frobnicate", "a"]
      (by decide) (by decide) (by decide) (by decide) (by decide)⟩

/-- C7: a legacy 3-positional-argument invocation whose first argument is
not a recognized action keyword behaves exactly like the explicit `verify`
invocation with the same three arguments. -/
theorem claim7_legacy_equiv (w : World) (prog a b c : String)
    (hv : a ≠ "verify") (hc : a ≠ "cancel") (ha : a ≠ "acknowledge") :
    runMain w [prog, a, b, c] = runMain w [prog, "verify", a, b, c] := by
  simp [runMain, hv, hc, ha]

/-- Witness for C7 at a concrete world and concrete arguments. -/
theorem claim7_legacy_equiv_witness :
    runMain worldSub200 ["verify_google_purchase.py", "com.example.app", "sku1", "ptok"] =
    runMain worldSub200
      ["verify_google_purchase.py", "verify", "com.example.app", "sku1", "ptok"] :=
  claim7_legacy_equiv worldSub200 "verify_google_purchase.py" "com.example.app" "sku1"
    "ptok" (by decide) (by decide) (by decide)

/-- C8: for the three POST actions, an HTTP 200 or 204 yields exactly
`{success: true}` (in particular no `data` key), and any other status
yields a failure with `statusCode` and the response body as `details`. -/
theorem claim8_post_actions_status :
    (∀ (w : World) (p i t : String) (c : Credentials) (r : HttpResponse),
      w.creds = Except.ok c →
      w.post (ackSubscriptionUrl p i t) = Except.ok r →
      (r.status_code = 200 ∨ r.status_code = 204) →
      (acknowledge_subscription w p i t).1 = [("success", JVal.bool true)] ∧
      lookupKey (acknowledge_subscription w p i t).1 "data" = none) ∧
    (∀ (w : World) (p i t : String) (c : Credentials) (r : HttpResponse),
      w.creds = Except.ok c →
      w.post (ackSubscriptionUrl p i t) = Except.ok r →
      ¬(r.status_code = 200 ∨ r.status_code = 204) →
      (acknowledge_subscription w p i t).1 =
        httpFailure (acknowledgeFailMsg r.status_code) r.status_code r.text) ∧
    (∀ (w : World) (p i t : String) (c : Credentials) (r : HttpResponse),
      w.creds = Except.ok c →
      w.post (ackProductUrl p i t) = Except.ok r →
      (r.status_code = 200 ∨ r.status_code = 204) →
      (acknowledge_product w p i t).1 = [("success", JVal.bool true)] ∧
      lookupKey (acknowledge_product w p i t).1 "data" = none) ∧
    (∀ (w : World) (p i t : String) (c : Credentials) (r : HttpResponse),
      w.creds = Except.ok c →
      w.post (ackProductUrl p i t) = Except.ok r →
      ¬(r.status_code = 200 ∨ r.status_code = 204) →
      (acknowledge_product w p i t).1 =
        httpFailure (acknowledgeFailMsg r.status_code) r.status_code r.text) ∧
    (∀ (w : World) (p i t : String) (c : Credentials) (r : HttpResponse),
      w.creds = Except.ok c →
      w.post (cancelUrl p i t) = Except.ok r →
      (r.status_code = 200 ∨ r.status_code = 204) →
      (cancel_subscription w p i t).1 = [("success", JVal.bool true)] ∧
      lookupKey (cancel_subscription w p i t).1 "data" = none) ∧
    (∀ (w : World) (p i t : String) (c : Credentials) (r : HttpResponse),
      w.creds = Except.ok c →
      w.post (cancelUrl p i t) = Except.ok r →
      ¬(r.status_code = 200 ∨ r.status_code = 204) →
      (cancel_subscription w p i t).1 =
        httpFailure (cancelFailMsg r.status_code) r.status_code r.text) := by
  refine ⟨?_, ?_, ?_, ?_, ?_, ?_⟩
  · intro w p i t c r hc hr h
    simp [acknowledge_subscription, hc, hr, h, lookupKey]
  · intro w p i t c r hc hr h
    simp [acknowledge_subscription, hc, hr, h]
  · intro w p i t c r hc hr h
    simp [acknowledge_product, hc, hr, h, lookupKey]
  · intro w p i t c r hc hr h
    simp [acknowledge_product, hc, hr, h]
  · intro w p i t c r hc hr h
    simp [cancel_subscription, hc, hr, h, lookupKey]
  · intro w p i t c r hc hr h
    simp [cancel_subscription, hc, hr, h]

/-- Witness for C8: a concrete 204 response yields `{success: true}` for
cancel, and a concrete 500 response yields the status/details failure. -/
theorem claim8_post_actions_status_witness :
    ((cancel_subscription worldSub200 "com.example.app" "sku1" "ptok").1 =
       [("success", JVal.bool true)] ∧
     lookupKey (cancel_subscription worldSub200 "com.example.app" "sku1" "ptok").1 "data" =
       none) ∧
    (cancel_subscription worldBothFail "com.example.app" "sku1" "ptok").1 =
      httpFailure (cancelFailMsg 500) 500 "server-error" ∧
    ((acknowledge_subscription worldSub200 "com.example.app" "sku1" "ptok").1 =
       [("success", JVal.bool true)] ∧
     lookupKey (acknowledge_subscription worldSub200 "com.example.app" "sku1" "ptok").1
       "data" = none) :=
  ⟨claim8_post_actions_status.2.2.2.2.1 worldSub200 "com.example.app" "sku1" "ptok"
      { token := "tok" } resp204 rfl rfl (by right; rfl),
   claim8_post_actions_status.2.2.2.2.2 worldBothFail "com.example.app" "sku1" "ptok"
      { token := "tok" } resp500 rfl rfl (by decide),
   claim8_post_actions_status.1 worldSub200 "com.example.app" "sku1" "ptok"
      { token := "tok" } resp204 rfl rfl (by right; rfl)⟩

/-- The two failure shapes of §3's result object: an upstream-HTTP failure
carries `statusCode` and `details` and no `errorType`; an exception
failure carries `errorType` and neither `statusCode` nor `details`. -/
def failureShape (r : JDict) : Prop :=
  ((lookupKey r "statusCode").isSome = true ∧ (lookupKey r "details").isSome = true ∧
    lookupKey r "errorType" = none) ∨
  ((lookupKey r "errorType").isSome = true ∧ lookupKey r "statusCode" = none ∧
    lookupKey r "details" = none)

/-- C9: every failure result produced by an action function is of exactly
one of the two shapes (HTTP failure with `statusCode`/`details`, or
exception failure with `errorType`), never a mixture. -/
theorem claim9_failure_shapes :
    (∀ (w : World) (p i t : String),
      lookupKey (verify_purchase w p i t).1 "success" = some (JVal.bool false) →
      failureShape (verify_purchase w p i t).1) ∧
    (∀ (w : World) (p i t : String),
      lookupKey (acknowledge_subscription w p i t).1 "success" = some (JVal.bool false) →
      failureShape (acknowledge_subscription w p i t).1) ∧
    (∀ (w : World) (p i t : String),
      lookupKey (acknowledge_product w p i t).1 "success" = some (JVal.bool false) →
      failureShape (acknowledge_product w p i t).1) ∧
    (∀ (w : World) (p i t : String),
      lookupKey (cancel_subscription w p i t).1 "success" = some (JVal.bool false) →
      failureShape (cancel_subscription w p i t).1) := by
  refine ⟨?_, ?_, ?_, ?_⟩ <;> intro w p i t
  · unfold verify_purchase
    repeat' split
    all_goals intro h
    all_goals first
      | exact Or.inl ⟨rfl, rfl, rfl⟩
      | exact Or.inr ⟨rfl, rfl, rfl⟩
      | (exfalso; simp [lookupKey] at h)
  · unfold acknowledge_subscription
    repeat' split
    all_goals intro h
    all_goals first
      | exact Or.inl ⟨rfl, rfl, rfl⟩
      | exact Or.inr ⟨rfl, rfl, rfl⟩
      | (exfalso; simp [lookupKey] at h)
  · unfold acknowledge_product
    repeat' split
    all_goals intro h
    all_goals first
      | exact Or.inl ⟨rfl, rfl, rfl⟩
      | exact Or.inr ⟨rfl, rfl, rfl⟩
      | (exfalso; simp [lookupKey] at h)
  · unfold cancel_subscription
    repeat' split
    all_goals intro h
    all_goals first
      | exact Or.inl ⟨rfl, rfl, rfl⟩
      | exact Or.inr ⟨rfl, rfl, rfl⟩
      | (exfalso; simp [lookupKey] at h)

/-- Witness for C9: the concrete double-failure world gives an HTTP-shaped
failure, and the concrete unreachable-metadata world an exception-shaped
one. -/
theorem claim9_failure_shapes_witness :
    failureShape (verify_purchase worldBothFail "com.example.app" "sku1" "ptok").1 ∧
    failureShape (verify_purchase credsFailWorld "com.example.app" "sku1" "ptok").1 :=
  ⟨claim9_failure_shapes.1 worldBothFail "com.example.app" "sku1" "ptok" rfl,
   claim9_failure_shapes.1 credsFailWorld "com.example.app" "sku1" "ptok" rfl⟩

/-- C10: every result dict returned by any action function has a boolean
`success` entry, so the final `result["success"]` indexing never raises:
`runMain` never takes the crash (`exitCode = none`) path. -/
theorem claim10_success_key_total :
    (∀ (w : World) (p i t : String),
      ∃ b, lookupKey (verify_purchase w p i t).1 "success" = some (JVal.bool b)) ∧
    (∀ (w : World) (p i t : String),
      ∃ b, lookupKey (acknowledge_subscription w p i t).1 "success" = some (JVal.bool b)) ∧
    (∀ (w : World) (p i t : String),
      ∃ b, lookupKey (acknowledge_product w p i t).1 "success" = some (JVal.bool b)) ∧
    (∀ (w : World) (p i t : String),
      ∃ b, lookupKey (cancel_subscription w p i t).1 "success" = some (JVal.bool b)) ∧
    (∀ (w : World) (argv : List String), (runMain w argv).exitCode.isSome = true) := by
  refine ⟨verify_purchase_success_key, acknowledge_subscription_success_key,
    acknowledge_product_success_key, cancel_subscription_success_key, ?_⟩
  intro w argv
  obtain ⟨r, b, ho, hk, he⟩ := runMain_shape w argv
  rw [he]
  rfl

end GPlay
